import Mathlib

/-!
Verification of the solar-energy estimation backend.

The backend exposes a pure numeric core `compute_energy` over a validated
record of four bounded numbers, an input-validation boundary (the
`EnergyInput` field constraints enforced before the core runs), and a
subscribe handler that swallows persistence failures.  Python floats are
modelled by exact rationals; Python's `round` (banker's rounding,
half-to-even) is modelled by `roundHalfEven`.
-/

/-- Round half to even on rationals, matching the semantics of Python's
built-in `round` used in `compute_energy`. -/
def roundHalfEven (q : ℚ) : ℤ :=
  if q - (⌊q⌋ : ℚ) < 1/2 then ⌊q⌋
  else if q - (⌊q⌋ : ℚ) = 1/2 then (if ⌊q⌋ % 2 = 0 then ⌊q⌋ else ⌊q⌋ + 1)
  else ⌊q⌋ + 1

/-- The validated input record: `EnergyInput` from `src/main.py`.
Field bounds (tilt in [0,90], azimuth in [0,360], irradiance >= 0,
area >= 0) are tracked separately by `ValidInput`. -/
structure EnergyInput where
  tilt : ℚ
  azimuth : ℚ
  irradiance : ℚ
  area : ℚ
deriving DecidableEq

/-- The output record: `EnergyOutput` from `src/main.py`. -/
structure EnergyOutput where
  daily : ℚ
  monthly : ℚ
  score : ℤ
deriving DecidableEq

/-- The field constraints declared on `EnergyInput` in `src/main.py`
(`Field(..., ge=0, le=90)` etc.). -/
def ValidInput (inp : EnergyInput) : Prop :=
  0 ≤ inp.tilt ∧ inp.tilt ≤ 90 ∧ 0 ≤ inp.azimuth ∧ inp.azimuth ≤ 360 ∧
    0 ≤ inp.irradiance ∧ 0 ≤ inp.area

instance (inp : EnergyInput) : Decidable (ValidInput inp) := by
  unfold ValidInput; infer_instance

/-- `tiltFactor = 1 - abs(tilt - 30) / 120` from `compute_energy`. -/
def tiltFactor (tilt : ℚ) : ℚ := 1 - |tilt - 30| / 120

/-- `facingSouthFactor = 1 - min(abs(azimuth - 180), 180) / 240` from
`compute_energy`. -/
def facingSouthFactor (azimuth : ℚ) : ℚ := 1 - min (|azimuth - 180|) 180 / 240

/-- `k = max(0.5, tiltFactor * 0.9 + facingSouthFactor * 0.6)` from
`compute_energy`. -/
def compute_k (inp : EnergyInput) : ℚ :=
  max 0.5 (tiltFactor inp.tilt * 0.9 + facingSouthFactor inp.azimuth * 0.6)

/-- The core `compute_energy` of `src/main.py`, line for line. -/
def compute_energy (inp : EnergyInput) : EnergyOutput :=
  let k := compute_k inp
  let dailyKWh := inp.irradiance * inp.area * 0.18 * k
  let monthlyKWh := dailyKWh * 30
  let score := roundHalfEven (min 100 (k / 1.5 * 100))
  ⟨max 0 dailyKWh, max 0 monthlyKWh, score⟩

/-- The seven-step algorithm of spec section 4.1, transcribed from the
spec's own words, to be compared with `compute_energy`. -/
def spec_compute_energy (inp : EnergyInput) : EnergyOutput :=
  let tiltFactorS := 1 - |inp.tilt - 30| / 120
  let facingSouthFactorS := 1 - min (|inp.azimuth - 180|) 180 / 240
  let kS := max 0.5 (tiltFactorS * 0.9 + facingSouthFactorS * 0.6)
  let dailyKWhS := inp.irradiance * inp.area * 0.18 * kS
  let monthlyKWhS := dailyKWhS * 30
  let scoreS := roundHalfEven (min 100 (kS / 1.5 * 100))
  ⟨max 0 dailyKWhS, max 0 monthlyKWhS, scoreS⟩

/-- The boundary validation of the energy-estimate endpoint: the
`EnergyInput` field constraints are checked before `compute_energy` runs,
and an out-of-range field rejects the request (`none` models the
client-error response). -/
def validate_input (tilt azimuth irradiance area : ℚ) : Option EnergyInput :=
  if 0 ≤ tilt ∧ tilt ≤ 90 ∧ 0 ≤ azimuth ∧ azimuth ≤ 360 ∧
      0 ≤ irradiance ∧ 0 ≤ area then
    some ⟨tilt, azimuth, irradiance, area⟩
  else none

/-- The `/api/energy/estimate` handler: validation at the boundary, then
the pure core. -/
def energy_estimate (tilt azimuth irradiance area : ℚ) : Option EnergyOutput :=
  (validate_input tilt azimuth irradiance area).map compute_energy

/-- Response of the `/api/subscribe` handler. -/
structure SubscribeResponse where
  status : String
  stored : Bool
  id : Option String
deriving DecidableEq

/-- The `/api/subscribe` handler of `src/main.py`.  The external
`create_document` call is abstracted as `persist`, applied to the
collection name and the email; `Except.error` models any raised
exception (including the database module being absent). -/
def subscribe (email : String) (persist : String → String → Except String String) :
    SubscribeResponse :=
  match persist "subscriber" email with
  | Except.ok docId => ⟨"ok", true, some docId⟩
  | Except.error _ => ⟨"ok", false, none⟩

/-! ## Helper lemmas -/

lemma compute_energy_daily (inp : EnergyInput) :
    (compute_energy inp).daily =
      max 0 (inp.irradiance * inp.area * 0.18 * compute_k inp) := rfl

lemma compute_energy_monthly (inp : EnergyInput) :
    (compute_energy inp).monthly =
      max 0 (inp.irradiance * inp.area * 0.18 * compute_k inp * 30) := rfl

lemma compute_energy_score (inp : EnergyInput) :
    (compute_energy inp).score =
      roundHalfEven (min 100 (compute_k inp / 1.5 * 100)) := rfl

lemma roundHalfEven_cases (q : ℚ) :
    roundHalfEven q = ⌊q⌋ ∨ roundHalfEven q = ⌊q⌋ + 1 := by
  unfold roundHalfEven
  split_ifs <;> simp

lemma le_roundHalfEven (n : ℤ) (q : ℚ) (h : (n : ℚ) ≤ q) : n ≤ roundHalfEven q := by
  have hf : n ≤ ⌊q⌋ := Int.le_floor.mpr h
  rcases roundHalfEven_cases q with h1 | h1 <;> omega

lemma roundHalfEven_le (n : ℤ) (q : ℚ) (h : q ≤ (n : ℚ)) : roundHalfEven q ≤ n := by
  have hfn : ⌊q⌋ ≤ n := by
    have := Int.floor_mono h
    simpa using this
  unfold roundHalfEven
  split_ifs with h1 h2 h3
  · exact hfn
  · exact hfn
  · have hq : (⌊q⌋ : ℚ) < (n : ℚ) := by linarith
    have : ⌊q⌋ < n := by exact_mod_cast hq
    omega
  · have h4 : (1 : ℚ)/2 ≤ q - (⌊q⌋ : ℚ) := le_of_not_lt h1
    have hq : (⌊q⌋ : ℚ) < (n : ℚ) := by linarith
    have : ⌊q⌋ < n := by exact_mod_cast hq
    omega

lemma roundHalfEven_intCast (n : ℤ) (q : ℚ) (h : q = (n : ℚ)) : roundHalfEven q = n := by
  subst h
  unfold roundHalfEven
  simp

lemma tiltFactor_le_one (t : ℚ) : tiltFactor t ≤ 1 := by
  have := abs_nonneg (t - 30)
  unfold tiltFactor
  linarith

lemma half_le_tiltFactor (t : ℚ) (h0 : 0 ≤ t) (h90 : t ≤ 90) : 1/2 ≤ tiltFactor t := by
  have habs : |t - 30| ≤ 60 := abs_le.mpr ⟨by linarith, by linarith⟩
  unfold tiltFactor
  linarith

lemma facingSouthFactor_le_one (a : ℚ) : facingSouthFactor a ≤ 1 := by
  have h1 : (0 : ℚ) ≤ min (|a - 180|) 180 := le_min (abs_nonneg _) (by norm_num)
  unfold facingSouthFactor
  linarith

lemma quarter_le_facingSouthFactor (a : ℚ) : 1/4 ≤ facingSouthFactor a := by
  have h1 : min (|a - 180|) 180 ≤ 180 := min_le_right _ _
  unfold facingSouthFactor
  linarith

lemma weighted_sum_ge (inp : EnergyInput) (h0 : 0 ≤ inp.tilt) (h90 : inp.tilt ≤ 90) :
    3/5 ≤ tiltFactor inp.tilt * 0.9 + facingSouthFactor inp.azimuth * 0.6 := by
  have h1 := half_le_tiltFactor inp.tilt h0 h90
  have h2 := quarter_le_facingSouthFactor inp.azimuth
  linarith

lemma compute_k_eq (inp : EnergyInput) (h0 : 0 ≤ inp.tilt) (h90 : inp.tilt ≤ 90) :
    compute_k inp =
      tiltFactor inp.tilt * 0.9 + facingSouthFactor inp.azimuth * 0.6 := by
  have := weighted_sum_ge inp h0 h90
  unfold compute_k
  exact max_eq_right (by linarith)

lemma compute_k_ge_half (inp : EnergyInput) : 1/2 ≤ compute_k inp := by
  have h : (1/2 : ℚ) = 0.5 := by norm_num
  rw [h]
  exact le_max_left _ _

lemma compute_k_le (inp : EnergyInput) : compute_k inp ≤ 3/2 := by
  have h1 := tiltFactor_le_one inp.tilt
  have h2 := facingSouthFactor_le_one inp.azimuth
  unfold compute_k
  exact max_le (by norm_num) (by linarith)

lemma compute_k_ge (inp : EnergyInput) (h0 : 0 ≤ inp.tilt) (h90 : inp.tilt ≤ 90) :
    3/5 ≤ compute_k inp := by
  rw [compute_k_eq inp h0 h90]
  exact weighted_sum_ge inp h0 h90

/-! ## Claim theorems -/

/-- C1: for every valid EnergyInput (tilt in [0,90], azimuth in [0,360],
irradiance >= 0, area >= 0), `compute_energy` returns exactly the outputs
of the seven-step formula of spec section 4.1 (`spec_compute_energy`),
step for step in the exact arithmetic modelling the program's
floating-point evaluation. -/
theorem compute_energy_refines_spec (inp : EnergyInput) (h : ValidInput inp) :
    compute_energy inp = spec_compute_energy inp := rfl

theorem compute_energy_refines_spec_witness :
    ValidInput ⟨25, 180, 5, 18⟩ ∧
      compute_energy ⟨25, 180, 5, 18⟩ = spec_compute_energy ⟨25, 180, 5, 18⟩ :=
  ⟨by decide, compute_energy_refines_spec ⟨25, 180, 5, 18⟩ (by decide)⟩

/-- C2: for every valid EnergyInput, the output of `compute_energy`
satisfies `daily >= 0`, `monthly >= 0`, and `monthly = daily * 30`
exactly. -/
theorem daily_monthly_nonneg_and_ratio (inp : EnergyInput) (h : ValidInput inp) :
    0 ≤ (compute_energy inp).daily ∧ 0 ≤ (compute_energy inp).monthly ∧
      (compute_energy inp).monthly = (compute_energy inp).daily * 30 := by
  obtain ⟨h1, h2, h3, h4, h5, h6⟩ := h
  have hk : (0 : ℚ) ≤ compute_k inp := le_trans (by norm_num) (compute_k_ge_half inp)
  have hd : (0 : ℚ) ≤ inp.irradiance * inp.area * 0.18 * compute_k inp :=
    mul_nonneg (mul_nonneg (mul_nonneg h5 h6) (by norm_num)) hk
  rw [compute_energy_daily, compute_energy_monthly, max_eq_right hd,
    max_eq_right (by linarith :
      (0 : ℚ) ≤ inp.irradiance * inp.area * 0.18 * compute_k inp * 30)]
  exact ⟨hd, by linarith, rfl⟩

theorem daily_monthly_nonneg_and_ratio_witness :
    ValidInput ⟨25, 180, 5, 18⟩ ∧
      (0 ≤ (compute_energy ⟨25, 180, 5, 18⟩).daily ∧
        0 ≤ (compute_energy ⟨25, 180, 5, 18⟩).monthly ∧
        (compute_energy ⟨25, 180, 5, 18⟩).monthly =
          (compute_energy ⟨25, 180, 5, 18⟩).daily * 30) :=
  ⟨by decide, daily_monthly_nonneg_and_ratio ⟨25, 180, 5, 18⟩ (by decide)⟩

/-- C3: for every valid EnergyInput, the score returned by
`compute_energy` is an integer (it has type ℤ in this embedding, mirroring
`score: int`) lying in the closed range [0, 100]. -/
theorem score_in_range (inp : EnergyInput) (h : ValidInput inp) :
    0 ≤ (compute_energy inp).score ∧ (compute_energy inp).score ≤ 100 := by
  have hk := compute_k_ge_half inp
  rw [compute_energy_score]
  constructor
  · apply le_roundHalfEven
    push_cast
    refine le_min (by norm_num) ?_
    have hrw : compute_k inp / 1.5 * 100 = compute_k inp * (200/3) := by ring
    rw [hrw]
    linarith
  · apply roundHalfEven_le
    push_cast
    exact min_le_left _ _

theorem score_in_range_witness :
    ValidInput ⟨0, 360, 5, 18⟩ ∧
      (0 ≤ (compute_energy ⟨0, 360, 5, 18⟩).score ∧
        (compute_energy ⟨0, 360, 5, 18⟩).score ≤ 100) :=
  ⟨by decide, score_in_range ⟨0, 360, 5, 18⟩ (by decide)⟩

/-- C4: for every valid EnergyInput, the multiplier k satisfies
`k >= 0.5`, and `daily > 0` and `monthly > 0` whenever
`irradiance * area > 0`. -/
theorem k_floored_and_positive_energy (inp : EnergyInput) (h : ValidInput inp) :
    1/2 ≤ compute_k inp ∧
      (0 < inp.irradiance * inp.area →
        0 < (compute_energy inp).daily ∧ 0 < (compute_energy inp).monthly) := by
  refine ⟨compute_k_ge_half inp, fun hpos => ?_⟩
  have hk : (0 : ℚ) < compute_k inp :=
    lt_of_lt_of_le (by norm_num) (compute_k_ge_half inp)
  have hd : (0 : ℚ) < inp.irradiance * inp.area * 0.18 * compute_k inp :=
    mul_pos (mul_pos hpos (by norm_num)) hk
  rw [compute_energy_daily, compute_energy_monthly]
  exact ⟨lt_max_iff.mpr (Or.inr hd), lt_max_iff.mpr (Or.inr (by linarith))⟩

theorem k_floored_and_positive_energy_witness :
    ValidInput ⟨25, 180, 5, 18⟩ ∧ (0 : ℚ) < 5 * 18 ∧
      (1/2 ≤ compute_k ⟨25, 180, 5, 18⟩ ∧
        0 < (compute_energy ⟨25, 180, 5, 18⟩).daily ∧
        0 < (compute_energy ⟨25, 180, 5, 18⟩).monthly) := by
  have h := k_floored_and_positive_energy ⟨25, 180, 5, 18⟩ (by decide)
  exact ⟨by decide, by norm_num, h.1, h.2 (by norm_num)⟩

/-- C5 (counterexample): with irradiance = 0 and area = 0 the claim's
conclusion "strictly larger daily" fails even though tilt 30 is strictly
nearer to 30 than tilt 0 and k is strictly larger: both daily outputs are
0. -/
theorem tilt_mono_counterexample :
    |(30 : ℚ) - 30| < |(0 : ℚ) - 30| ∧
      ValidInput ⟨30, 180, 0, 0⟩ ∧ ValidInput ⟨0, 180, 0, 0⟩ ∧
      compute_k ⟨0, 180, 0, 0⟩ < compute_k ⟨30, 180, 0, 0⟩ ∧
      (compute_energy ⟨30, 180, 0, 0⟩).daily = 0 ∧
      (compute_energy ⟨0, 180, 0, 0⟩).daily = 0 ∧
      ¬((compute_energy ⟨0, 180, 0, 0⟩).daily <
          (compute_energy ⟨30, 180, 0, 0⟩).daily) := by
  refine ⟨by norm_num, by decide, by decide, ?_, ?_, ?_, ?_⟩
  · norm_num [compute_k, tiltFactor, facingSouthFactor, max_def]
  · simp [compute_energy_daily]
  · simp [compute_energy_daily]
  · simp [compute_energy_daily]

/-- C5 (amended): holding azimuth, irradiance and area fixed, for tilts
t1, t2 in [0, 90] with |t1 - 30| < |t2 - 30|, `compute_energy` produces
strictly larger k at t1 than at t2; the daily output is also strictly
larger at t1 provided `irradiance * area > 0` (with a zero-area or
zero-irradiance input both daily outputs are 0). -/
theorem tilt_strict_mono (t1 t2 az irr ar : ℚ)
    (h10 : 0 ≤ t1) (h19 : t1 ≤ 90) (h20 : 0 ≤ t2) (h29 : t2 ≤ 90)
    (hlt : |t1 - 30| < |t2 - 30|) :
    compute_k ⟨t2, az, irr, ar⟩ < compute_k ⟨t1, az, irr, ar⟩ ∧
      (0 < irr * ar →
        (compute_energy ⟨t2, az, irr, ar⟩).daily <
          (compute_energy ⟨t1, az, irr, ar⟩).daily) := by
  have htf : tiltFactor t2 < tiltFactor t1 := by
    unfold tiltFactor
    linarith
  have hk : compute_k ⟨t2, az, irr, ar⟩ < compute_k ⟨t1, az, irr, ar⟩ := by
    rw [compute_k_eq ⟨t2, az, irr, ar⟩ h20 h29, compute_k_eq ⟨t1, az, irr, ar⟩ h10 h19]
    simp only
    linarith
  refine ⟨hk, fun hpos => ?_⟩
  have hc : (0 : ℚ) < irr * ar * 0.18 := mul_pos hpos (by norm_num)
  have h2pos : (0 : ℚ) < irr * ar * 0.18 * compute_k ⟨t2, az, irr, ar⟩ :=
    mul_pos hc (lt_of_lt_of_le (by norm_num) (compute_k_ge_half _))
  have h1pos : (0 : ℚ) < irr * ar * 0.18 * compute_k ⟨t1, az, irr, ar⟩ :=
    mul_pos hc (lt_of_lt_of_le (by norm_num) (compute_k_ge_half _))
  rw [compute_energy_daily, compute_energy_daily]
  simp only
  rw [max_eq_right h2pos.le, max_eq_right h1pos.le]
  exact mul_lt_mul_of_pos_left hk hc

theorem tilt_strict_mono_witness :
    |(30 : ℚ) - 30| < |(0 : ℚ) - 30| ∧
      compute_k ⟨0, 180, 1, 1⟩ < compute_k ⟨30, 180, 1, 1⟩ ∧
      (compute_energy ⟨0, 180, 1, 1⟩).daily <
        (compute_energy ⟨30, 180, 1, 1⟩).daily := by
  have h := tilt_strict_mono 30 0 180 1 1 (by decide) (by decide) (by decide)
    (by decide) (by norm_num)
  exact ⟨by norm_num, h.1, h.2 (by norm_num)⟩

lemma energyOutput_ext (a b : EnergyOutput) (h1 : a.daily = b.daily)
    (h2 : a.monthly = b.monthly) (h3 : a.score = b.score) : a = b := by
  cases a
  cases b
  congr 1

/-- C6: for any two azimuth values in [0, 360] equidistant from 180,
`facingSouthFactor` is identical, and `compute_energy` returns identical
output when tilt, irradiance and area are equal. -/
theorem azimuth_symmetry (a1 a2 t irr ar : ℚ)
    (h1 : 0 ≤ a1) (h2 : a1 ≤ 360) (h3 : 0 ≤ a2) (h4 : a2 ≤ 360)
    (heq : |a1 - 180| = |a2 - 180|) :
    facingSouthFactor a1 = facingSouthFactor a2 ∧
      compute_energy ⟨t, a1, irr, ar⟩ = compute_energy ⟨t, a2, irr, ar⟩ := by
  have hf : facingSouthFactor a1 = facingSouthFactor a2 := by
    unfold facingSouthFactor
    rw [heq]
  have hk : compute_k ⟨t, a1, irr, ar⟩ = compute_k ⟨t, a2, irr, ar⟩ := by
    show max 0.5 (tiltFactor t * 0.9 + facingSouthFactor a1 * 0.6) =
      max 0.5 (tiltFactor t * 0.9 + facingSouthFactor a2 * 0.6)
    rw [hf]
  refine ⟨hf, energyOutput_ext _ _ ?_ ?_ ?_⟩
  · rw [compute_energy_daily, compute_energy_daily, hk]
  · rw [compute_energy_monthly, compute_energy_monthly, hk]
  · rw [compute_energy_score, compute_energy_score, hk]

theorem azimuth_symmetry_witness :
    |(90 : ℚ) - 180| = |(270 : ℚ) - 180| ∧
      facingSouthFactor 90 = facingSouthFactor 270 ∧
      compute_energy ⟨25, 90, 1, 1⟩ = compute_energy ⟨25, 270, 1, 1⟩ := by
  have h := azimuth_symmetry 90 270 25 1 1 (by decide) (by decide) (by decide)
    (by decide) (by norm_num)
  exact ⟨by norm_num, h.1, h.2⟩

/-- C7: the two boundary scenarios of spec section 8: tilt=30,
azimuth=180, irradiance=4.8, area=18 yields k=1.5, daily=23.328,
monthly=699.84, score=100; tilt=0, azimuth=0, irradiance=0, area=0 yields
k=0.825, daily=0, monthly=0, score=55. -/
theorem boundary_scenarios :
    compute_k ⟨30, 180, 4.8, 18⟩ = 1.5 ∧
      compute_energy ⟨30, 180, 4.8, 18⟩ = ⟨23.328, 699.84, 100⟩ ∧
      compute_k ⟨0, 0, 0, 0⟩ = 0.825 ∧
      compute_energy ⟨0, 0, 0, 0⟩ = ⟨0, 0, 55⟩ := by
  have hk1 : compute_k ⟨30, 180, 4.8, 18⟩ = 1.5 := by
    norm_num [compute_k, tiltFactor, facingSouthFactor, max_def, min_def]
  have hk2 : compute_k ⟨0, 0, 0, 0⟩ = 0.825 := by
    norm_num [compute_k, tiltFactor, facingSouthFactor, max_def, min_def]
  have hs1 : roundHalfEven (min 100 ((1.5 : ℚ) / 1.5 * 100)) = 100 :=
    roundHalfEven_intCast 100 _ (by norm_num [min_def])
  have hs2 : roundHalfEven (min 100 ((0.825 : ℚ) / 1.5 * 100)) = 55 :=
    roundHalfEven_intCast 55 _ (by norm_num [min_def])
  refine ⟨hk1, energyOutput_ext _ _ ?_ ?_ ?_, hk2, energyOutput_ext _ _ ?_ ?_ ?_⟩
  · rw [compute_energy_daily, hk1]
    norm_num [max_def]
  · rw [compute_energy_monthly, hk1]
    norm_num [max_def]
  · rw [compute_energy_score, hk1]
    exact hs1
  · rw [compute_energy_daily, hk2]
    norm_num [max_def]
  · rw [compute_energy_monthly, hk2]
    norm_num [max_def]
  · rw [compute_energy_score, hk2]
    exact hs2

/-- C8: a request whose tilt is outside [0, 90], azimuth outside [0, 360],
irradiance < 0 or area < 0 is rejected by the boundary validation before
`compute_energy` runs (result `none`); in particular any tilt above 90,
such as tilt=100, is rejected; and every validated input reaches the
total core, producing `some (compute_energy inp)`. -/
theorem energy_estimate_validation (t a i r : ℚ) :
    (¬(0 ≤ t ∧ t ≤ 90 ∧ 0 ≤ a ∧ a ≤ 360 ∧ 0 ≤ i ∧ 0 ≤ r) →
      energy_estimate t a i r = none) ∧
      ((0 ≤ t ∧ t ≤ 90 ∧ 0 ≤ a ∧ a ≤ 360 ∧ 0 ≤ i ∧ 0 ≤ r) →
        energy_estimate t a i r = some (compute_energy ⟨t, a, i, r⟩)) ∧
      (90 < t → energy_estimate t a i r = none) := by
  unfold energy_estimate validate_input
  refine ⟨fun h => ?_, fun h => ?_, fun h => ?_⟩
  · rw [if_neg h]
    rfl
  · rw [if_pos h]
    rfl
  · rw [if_neg (fun hc => absurd hc.2.1 (not_le.mpr h))]
    rfl

theorem energy_estimate_validation_witness :
    energy_estimate 100 180 5 18 = none ∧
      energy_estimate 25 180 5 18 = some (compute_energy ⟨25, 180, 5, 18⟩) :=
  ⟨(energy_estimate_validation 100 180 5 18).2.2 (by decide),
    (energy_estimate_validation 25 180 5 18).2.1 (by decide)⟩

/-- C9 (implicit): for every valid EnergyInput, tiltFactor lies in
[0.5, 1] and facingSouthFactor in [0.25, 1], the weighted sum is at least
0.6, so the 0.5 floor in `max(0.5, ...)` is never the selected branch;
hence k lies in [0.6, 1.5] and the returned score is at least 40. -/
theorem factors_bounded_floor_never_selected (inp : EnergyInput) (h : ValidInput inp) :
    (1/2 ≤ tiltFactor inp.tilt ∧ tiltFactor inp.tilt ≤ 1) ∧
      (1/4 ≤ facingSouthFactor inp.azimuth ∧ facingSouthFactor inp.azimuth ≤ 1) ∧
      3/5 ≤ tiltFactor inp.tilt * 0.9 + facingSouthFactor inp.azimuth * 0.6 ∧
      compute_k inp = tiltFactor inp.tilt * 0.9 + facingSouthFactor inp.azimuth * 0.6 ∧
      3/5 ≤ compute_k inp ∧ compute_k inp ≤ 3/2 ∧
      40 ≤ (compute_energy inp).score := by
  obtain ⟨h1, h2, h3, h4, h5, h6⟩ := h
  refine ⟨⟨half_le_tiltFactor inp.tilt h1 h2, tiltFactor_le_one inp.tilt⟩,
    ⟨quarter_le_facingSouthFactor inp.azimuth, facingSouthFactor_le_one inp.azimuth⟩,
    weighted_sum_ge inp h1 h2, compute_k_eq inp h1 h2, compute_k_ge inp h1 h2,
    compute_k_le inp, ?_⟩
  have hkge := compute_k_ge inp h1 h2
  rw [compute_energy_score]
  apply le_roundHalfEven
  push_cast
  refine le_min (by norm_num) ?_
  have hrw : compute_k inp / 1.5 * 100 = compute_k inp * (200/3) := by
    rw [show (1.5 : ℚ) = 3/2 by norm_num]
    ring
  rw [hrw]
  linarith

theorem factors_bounded_floor_never_selected_witness :
    ValidInput ⟨45, 90, 5, 10⟩ ∧
      (3/5 ≤ compute_k ⟨45, 90, 5, 10⟩ ∧ compute_k ⟨45, 90, 5, 10⟩ ≤ 3/2 ∧
        40 ≤ (compute_energy ⟨45, 90, 5, 10⟩).score) := by
  have h := factors_bounded_floor_never_selected ⟨45, 90, 5, 10⟩ (by decide)
  exact ⟨by decide, h.2.2.2.2.1, h.2.2.2.2.2.1, h.2.2.2.2.2.2⟩

/-- C10 (implicit): the subscribe handler never propagates an error: its
status is "ok" whatever the persistence call does; a successful
`create_document` yields stored = true with the document id, and any
raised exception yields stored = false. -/
theorem subscribe_never_errors (email : String)
    (persist : String → String → Except String String) :
    (subscribe email persist).status = "ok" ∧
      (∀ docId, persist "subscriber" email = Except.ok docId →
        subscribe email persist = ⟨"ok", true, some docId⟩) ∧
      (∀ e, persist "subscriber" email = Except.error e →
        subscribe email persist = ⟨"ok", false, none⟩) := by
  refine ⟨?_, fun docId hok => ?_, fun e herr => ?_⟩
  · unfold subscribe
    rcases persist "subscriber" email with e | d
    · rfl
    · rfl
  · unfold subscribe
    rw [hok]
  · unfold subscribe
    rw [herr]

theorem subscribe_never_errors_witness :
    subscribe "user@example.com" (fun _ _ => Except.ok "doc1") =
        ⟨"ok", true, some "doc1"⟩ ∧
      subscribe "user@example.com" (fun _ _ => Except.error "no database") =
        ⟨"ok", false, none⟩ :=
  ⟨(subscribe_never_errors "user@example.com" (fun _ _ => Except.ok "doc1")).2.1
      "doc1" rfl,
    (subscribe_never_errors "user@example.com"
        (fun _ _ => Except.error "no database")).2.2 "no database" rfl⟩
